import Mathlib

/-!
# Verification of the passManager backend (`src/backend/server.js`)

A shallow embedding of the Express/MongoDB backend of the passManager
repository, together with theorems settling the frozen claims about its
specification.

Modelling conventions:
* `Nat` stands for both timestamps (`new Date()`) and store-assigned
  MongoDB `ObjectId`s; the store carries a `nextId` counter standing for
  the store's fresh-id assignment (MongoDB ids are unique and never
  reused).
* A route `:id` parameter is an `Option Nat`: `none` stands for the class
  of strings rejected by `ObjectId.isValid`, `some i` for a well-formed
  ObjectId string denoting id `i`.
* bcrypt hashing/comparison and JWT signing/verification are external
  primitives; handlers are parameterised over them (`hash`, `compare`,
  `sign`, `verify`), since no claim depends on their internals.
* JSON error bodies `{success: false, message}` are `.error status message`;
  success bodies keep the fields the code sends.
-/

namespace PassManager

/-- JWT payload, as signed at login: `{ id: user._id, username: user.username }`. -/
structure Payload where
  id : Nat
  username : String
deriving DecidableEq, Repr

/-- A document of the `users` collection, as inserted by the register handler. -/
structure User where
  mongoId : Nat
  username : String
  email : String
  password : String
  createdAt : Nat
deriving DecidableEq, Repr

/-- The `users` collection with the store's fresh-id counter. -/
structure UsersStore where
  users : List User
  nextId : Nat
deriving DecidableEq, Repr

/-- A document of the `passwords` collection, as inserted by the save handler. -/
structure PasswordRecord where
  mongoId : Nat
  site : String
  username : String
  password : String
  userId : Nat
  createdAt : Nat
  updatedAt : Nat
deriving DecidableEq, Repr

/-- The `passwords` collection with the store's fresh-id counter. -/
structure VaultStore where
  records : List PasswordRecord
  nextId : Nat
deriving DecidableEq, Repr

/-! ## Kernel-reducible string primitives

Lean's builtin `String.trim`, `String.toLower` and `String.splitOn` are
compiled with position-based loops that the kernel cannot reduce, so the
embedding implements the three JavaScript string operations the server uses
as structural functions over the character list. -/

/-- JS `s.trim()`: strip leading and trailing whitespace. -/
def jsTrim (s : String) : String :=
  ⟨((s.data.dropWhile Char.isWhitespace).reverse.dropWhile
      Char.isWhitespace).reverse⟩

/-- JS `s.toLowerCase()`. -/
def jsToLower (s : String) : String :=
  ⟨s.data.map Char.toLower⟩

/-- Split a character list at every occurrence of `sep`. -/
def splitOnChar (sep : Char) : List Char → List (List Char)
  | [] => [[]]
  | c :: cs =>
      if c = sep then [] :: splitOnChar sep cs
      else
        match splitOnChar sep cs with
        | [] => [[c]]
        | r :: rs => (c :: r) :: rs

/-- JS `s.split(sep)` for a one-character separator. -/
def jsSplit (sep : Char) (s : String) : List String :=
  (splitOnChar sep s.data).map (fun l => ⟨l⟩)

/-! ## Input validation helpers (`server.js` lines 60-72) -/

/-- One character of the `[^\s@]` regex class: neither whitespace nor `@`. -/
def emailChar (c : Char) : Bool :=
  !c.isWhitespace && c != '@'

/-- A `.` occurring at a position that is not the last of the list. -/
def dotNotLast : List Char → Bool
  | [] => false
  | [_] => false
  | '.' :: _ :: _ => true
  | _ :: rest => dotNotLast rest

/-- Helper `validateEmail` (line 61): tests `/^[^\s@]+@[^\s@]+\.[^\s@]+$/`.
Exactly one `@` (both character classes exclude it); a non-empty local part
of `[^\s@]` characters; a domain of `[^\s@]` characters containing a `.`
with at least one character on each side. -/
def validateEmail (email : String) : Bool :=
  match jsSplit '@' email with
  | [localPart, domain] =>
      localPart != "" && localPart.data.all emailChar &&
      domain.data.all emailChar &&
      (match domain.data with
       | [] => false
       | _ :: rest => dotNotLast rest)
  | _ => false

/-- Helper `validatePassword` (line 66): `password && password.length >= 6`. -/
def validatePassword (password : String) : Bool :=
  password != "" && 6 ≤ password.length

/-- Helper `validateUsername` (line 70): `username && username.trim().length >= 2`. -/
def validateUsername (username : String) : Bool :=
  username != "" && 2 ≤ (jsTrim username).length

/-! ## List-manipulation primitives standing for single-document writes -/

/-- Embeds `updateOne(filter, set)`: rewrite the first element matching `p`. -/
def replaceFirst (p : α → Bool) (f : α → α) : List α → List α
  | [] => []
  | a :: as => if p a then f a :: as else a :: replaceFirst p f as

/-- Embeds `deleteOne(filter)`: remove the first element matching `p`. -/
def removeFirst (p : α → Bool) : List α → List α
  | [] => []
  | a :: as => if p a then as else a :: removeFirst p as

/-! ## Identity Service (`/api/auth`) -/

/-- Responses of the two auth endpoints. -/
inductive AuthResponse where
  | error (status : Nat) (message : String)
  | registered (userId : Nat) (message : String)
  | loginOk (token : String) (id : Nat) (username : String) (email : String)
      (message : String)
deriving DecidableEq, Repr

/-- Route `POST /api/auth/register` (lines 83-136).  `hash` stands for
`bcrypt.hash(·, 12)`; `now` for `new Date()`. -/
def register (hash : String → String) (now : Nat)
    (username email password : String) (s : UsersStore) :
    AuthResponse × UsersStore :=
  if username = "" ∨ email = "" ∨ password = "" then
    (.error 400 "All fields are required", s)
  else if ¬ validateEmail email then
    (.error 400 "Please provide a valid email address", s)
  else if ¬ validateUsername username then
    (.error 400 "Username must be at least 2 characters long", s)
  else if ¬ validatePassword password then
    (.error 400 "Password must be at least 6 characters long", s)
  else
    match s.users.find? (fun u =>
        u.email == jsToLower email || u.username == jsToLower username) with
    | some existingUser =>
        let field := if existingUser.email == jsToLower email then "Email" else "Username"
        (.error 400 (field ++ " already exists"), s)
    | none =>
        let newUser : User :=
          { mongoId := s.nextId
            username := jsTrim username
            email := jsToLower email
            password := hash password
            createdAt := now }
        (.registered s.nextId "User registered successfully",
         { users := s.users ++ [newUser], nextId := s.nextId + 1 })

/-- Route `POST /api/auth/login` (lines 139-182).  `compare p h` stands for
`bcrypt.compare(p, h)`; `sign` for `jwt.sign(payload, secret, expiry)`. -/
def login (compare : String → String → Bool) (sign : Payload → String)
    (email password : String) (s : UsersStore) : AuthResponse :=
  if email = "" ∨ password = "" then
    .error 400 "Email and password are required"
  else if ¬ validateEmail email then
    .error 400 "Please provide a valid email address"
  else
    match s.users.find? (fun u => u.email == jsToLower email) with
    | none => .error 401 "Invalid email or password"
    | some user =>
        if ¬ compare password user.password then
          .error 401 "Invalid email or password"
        else
          .loginOk (sign ⟨user.mongoId, user.username⟩)
            user.mongoId user.username user.email "Login successful"

/-! ## Token verification gate (`verifyToken`, lines 39-58) -/

/-- Outcome of `jwt.verify(token, secret)`: success with a decoded payload,
a `TokenExpiredError`, or any other verification error. -/
inductive JwtOutcome where
  | ok (payload : Payload)
  | expired
  | invalid
deriving DecidableEq, Repr

/-- Embeds `authHeader && authHeader.split(" ")[1]` (line 42), with JS falsiness:
a missing header, a header with no second space-separated component, and an
empty second component all leave `token` falsy. -/
def extractToken (authHeader : Option String) : Option String :=
  match authHeader with
  | none => none
  | some h =>
      match (jsSplit ' ' h).get? 1 with
      | none => none
      | some "" => none
      | some t => some t

/-- Middleware `verifyToken` (lines 39-58): either a 401 error body
or the decoded payload attached as `req.user`. -/
def verifyToken (verify : String → JwtOutcome) (authHeader : Option String) :
    Except (Nat × String) Payload :=
  match extractToken authHeader with
  | none => .error (401, "Access denied. No token provided.")
  | some token =>
      match verify token with
      | .ok decoded => .ok decoded
      | .expired => .error (401, "Token expired. Please login again.")
      | .invalid => .error (401, "Invalid token.")

/-! ## Vault Service (`/api/passwords`) -/

/-- Responses of the four vault endpoints. -/
inductive VaultResponse where
  | error (status : Nat) (message : String)
  | okMessage (message : String)
  | createdId (insertedId : Nat) (message : String)
  | list (items : List PasswordRecord)
deriving DecidableEq, Repr

/-- The order `sort({createdAt: -1})`: most-recently-created first. -/
def byCreatedAtDesc (a b : PasswordRecord) : Prop :=
  b.createdAt ≤ a.createdAt

instance : DecidableRel byCreatedAtDesc :=
  fun a b => Nat.decLe b.createdAt a.createdAt

instance : IsTotal PasswordRecord byCreatedAtDesc :=
  ⟨fun a b => (Nat.le_total b.createdAt a.createdAt).imp (fun h => h) (fun h => h)⟩

instance : IsTrans PasswordRecord byCreatedAtDesc :=
  ⟨fun _ _ _ hab hbc => Nat.le_trans hbc hab⟩

/-- Route `GET /api/passwords` (lines 187-199):
`find({userId: req.user.id}).sort({createdAt: -1})`. -/
def getPasswords (user : Payload) (s : VaultStore) : VaultResponse :=
  .list ((s.records.filter (fun r => r.userId == user.id)).insertionSort
    byCreatedAtDesc)

/-- Route `POST /api/passwords` (lines 202-255). -/
def createPassword (user : Payload) (now : Nat)
    (site username password : String) (s : VaultStore) :
    VaultResponse × VaultStore :=
  if site = "" ∨ username = "" ∨ password = "" then
    (.error 400 "Site, username, and password are required", s)
  else if (jsTrim site).length < 3 then
    (.error 400 "Site must be at least 3 characters long", s)
  else if (jsTrim username).length < 1 then
    (.error 400 "Username cannot be empty", s)
  else if password.length < 1 then
    (.error 400 "Password cannot be empty", s)
  else
    let passwordData : PasswordRecord :=
      { mongoId := s.nextId
        site := jsTrim site
        username := jsTrim username
        password := password
        userId := user.id
        createdAt := now
        updatedAt := now }
    (.createdId s.nextId "Password saved successfully",
     { records := s.records ++ [passwordData], nextId := s.nextId + 1 })

/-- Route `PUT /api/passwords/:id` (lines 258-312).  `rid = none` stands for an id
failing `ObjectId.isValid`.  Note the ownership `findOne` filters on both
`_id` and `userId`, while the `updateOne` filters on `_id` alone. -/
def updatePassword (user : Payload) (now : Nat) (rid : Option Nat)
    (site username password : String) (s : VaultStore) :
    VaultResponse × VaultStore :=
  match rid with
  | none => (.error 400 "Invalid password ID format", s)
  | some i =>
    if site = "" ∨ username = "" ∨ password = "" then
      (.error 400 "Site, username, and password are required", s)
    else if (jsTrim site).length < 3 then
      (.error 400 "Site must be at least 3 characters long", s)
    else
      match s.records.find? (fun r => r.mongoId == i && r.userId == user.id) with
      | none => (.error 404 "Password not found or access denied", s)
      | some _ =>
          let updatedData := fun (r : PasswordRecord) =>
            { r with
              site := jsTrim site
              username := jsTrim username
              password := password
              updatedAt := now }
          (.okMessage "Password updated successfully",
           { s with records := replaceFirst (fun r => r.mongoId == i) updatedData s.records })

/-- Route `DELETE /api/passwords/:id` (lines 315-343). -/
def deletePassword (user : Payload) (rid : Option Nat) (s : VaultStore) :
    VaultResponse × VaultStore :=
  match rid with
  | none => (.error 400 "Invalid password ID format", s)
  | some i =>
    match s.records.find? (fun r => r.mongoId == i && r.userId == user.id) with
    | none => (.error 404 "Password not found or access denied", s)
    | some _ =>
        (.okMessage "Password deleted successfully",
         { s with records := removeFirst (fun r => r.mongoId == i) s.records })

/-- A protected route (`verifyToken` then handler): on gate failure the
handler never runs and the store is returned untouched. -/
def runProtected (verify : String → JwtOutcome) (authHeader : Option String)
    (handler : Payload → VaultStore → VaultResponse × VaultStore)
    (s : VaultStore) : VaultResponse × VaultStore :=
  match verifyToken verify authHeader with
  | .error e => (.error e.1 e.2, s)
  | .ok user => handler user s

/-! ## Derived views of the handlers -/

/-- The items of a `.list` response (and `[]` for any other response). -/
def listItems : VaultResponse → List PasswordRecord
  | .list items => items
  | _ => []

/-- The field validation performed by the Create handler (lines 207-233),
as a predicate on the submitted triple. -/
def createValidates (site username password : String) : Prop :=
  ¬(site = "" ∨ username = "" ∨ password = "") ∧
  ¬((jsTrim site).length < 3) ∧
  ¬((jsTrim username).length < 1) ∧
  ¬(password.length < 1)

instance (site username password : String) :
    Decidable (createValidates site username password) := by
  unfold createValidates; infer_instance

/-- The field validation performed by the Update handler (lines 269-281),
as a predicate on the submitted triple. -/
def updateValidates (site username password : String) : Prop :=
  ¬(site = "" ∨ username = "" ∨ password = "") ∧
  ¬((jsTrim site).length < 3)

instance (site username password : String) :
    Decidable (updateValidates site username password) := by
  unfold updateValidates; infer_instance

/-- One request against the vault collection (the credential store). -/
inductive VaultRequest where
  | create (user : Payload) (now : Nat) (site username password : String)
  | update (user : Payload) (now : Nat) (rid : Option Nat)
      (site username password : String)
  | delete (user : Payload) (rid : Option Nat)
  | list (user : Payload)
deriving DecidableEq, Repr

/-- The effect of one vault request on the credential store. -/
def applyRequest (s : VaultStore) : VaultRequest → VaultStore
  | .create user now site username password =>
      (createPassword user now site username password s).snd
  | .update user now rid site username password =>
      (updatePassword user now rid site username password s).snd
  | .delete user rid => (deletePassword user rid s).snd
  | .list _ => s

/-! ## Shared lemmas about the embedded operations -/

theorem find?_append_cons {α} (p : α → Bool) {l1 : List α} (u : α) (l2 : List α)
    (h1 : ∀ v ∈ l1, p v = false) (hu : p u = true) :
    (l1 ++ u :: l2).find? p = some u := by
  induction l1 with
  | nil => simp [List.find?_cons_of_pos, hu]
  | cons a as ih =>
      have ha : p a = false := h1 a (by simp)
      simpa [List.find?_cons_of_neg, ha] using
        ih (fun v hv => h1 v (by simp [hv]))

theorem replaceFirst_append_cons {α} (p : α → Bool) (f : α → α)
    {l1 : List α} (u : α) (l2 : List α)
    (h1 : ∀ v ∈ l1, p v = false) (hu : p u = true) :
    replaceFirst p f (l1 ++ u :: l2) = l1 ++ f u :: l2 := by
  induction l1 with
  | nil => simp [replaceFirst, hu]
  | cons a as ih =>
      have ha : p a = false := h1 a (by simp)
      simpa [replaceFirst, ha] using
        ih (fun v hv => h1 v (by simp [hv]))

theorem mem_replaceFirst {α} {p : α → Bool} {f : α → α} {l : List α} {x : α}
    (hx : x ∈ replaceFirst p f l) :
    x ∈ l ∨ ∃ a ∈ l, p a = true ∧ x = f a := by
  induction l with
  | nil => simp [replaceFirst] at hx
  | cons a as ih =>
      by_cases ha : p a
      · simp only [replaceFirst, if_pos ha, List.mem_cons] at hx
        rcases hx with rfl | hx
        · exact Or.inr ⟨a, by simp, ha, rfl⟩
        · exact Or.inl (by simp [hx])
      · simp only [replaceFirst, if_neg ha, List.mem_cons] at hx
        rcases hx with rfl | hx
        · exact Or.inl (by simp)
        · rcases ih hx with h | ⟨b, hb, hpb, hxb⟩
          · exact Or.inl (by simp [h])
          · exact Or.inr ⟨b, by simp [hb], hpb, hxb⟩

theorem mem_removeFirst {α} {p : α → Bool} {l : List α} {x : α}
    (hx : x ∈ removeFirst p l) : x ∈ l := by
  induction l with
  | nil => simp [removeFirst] at hx
  | cons a as ih =>
      by_cases ha : p a
      · simp only [removeFirst, if_pos ha] at hx
        exact List.mem_cons_of_mem a hx
      · simp only [removeFirst, if_neg ha, List.mem_cons] at hx
        rcases hx with rfl | hx
        · exact List.mem_cons_self x as
        · exact List.mem_cons_of_mem a (ih hx)

theorem createPassword_success (user : Payload) (now : Nat)
    (site username password : String) (s : VaultStore)
    (h : createValidates site username password) :
    createPassword user now site username password s =
      (.createdId s.nextId "Password saved successfully",
       { records := s.records ++
           [{ mongoId := s.nextId, site := jsTrim site, username := jsTrim username,
              password := password, userId := user.id,
              createdAt := now, updatedAt := now }],
         nextId := s.nextId + 1 }) := by
  obtain ⟨h1, h2, h3, h4⟩ := h
  simp only [createPassword, if_neg h1, if_neg h2, if_neg h3, if_neg h4]

theorem updatePassword_success (user : Payload) (now i : Nat)
    (site username password : String) {l1 l2 : List PasswordRecord}
    {r0 : PasswordRecord} (nextId : Nat)
    (hl1 : ∀ r ∈ l1, r.mongoId ≠ i)
    (hid : r0.mongoId = i) (hown : r0.userId = user.id)
    (hv : updateValidates site username password) :
    updatePassword user now (some i) site username password
        { records := l1 ++ r0 :: l2, nextId := nextId } =
      (.okMessage "Password updated successfully",
       { records := l1 ++
           { r0 with
             site := jsTrim site
             username := jsTrim username
             password := password
             updatedAt := now } :: l2
         nextId := nextId }) := by
  obtain ⟨h1, h2⟩ := hv
  have hskip : ∀ v ∈ l1, (v.mongoId == i && v.userId == user.id) = false := by
    intro v hv'
    have hne : (v.mongoId == i) = false := by
      simpa using hl1 v hv'
    simp [hne]
  have hfind :
      (l1 ++ r0 :: l2).find? (fun r => r.mongoId == i && r.userId == user.id) =
        some r0 :=
    find?_append_cons _ r0 l2 hskip (by simp [hid, hown])
  have hrep :
      replaceFirst (fun r => r.mongoId == i)
        (fun r =>
          { r with
            site := jsTrim site
            username := jsTrim username
            password := password
            updatedAt := now })
        (l1 ++ r0 :: l2) =
      l1 ++
        { r0 with
          site := jsTrim site
          username := jsTrim username
          password := password
          updatedAt := now } :: l2 :=
    replaceFirst_append_cons _ _ r0 l2
      (fun v hv' => by simpa using hl1 v hv') (by simp [hid])
  simp only [updatePassword, if_neg h1, if_neg h2, hfind, hrep]

theorem mem_listItems_getPasswords {user : Payload} {s : VaultStore}
    {r : PasswordRecord} :
    r ∈ listItems (getPasswords user s) ↔ r ∈ s.records ∧ r.userId = user.id := by
  simp [listItems, getPasswords, List.mem_insertionSort, List.mem_filter]

theorem sorted_getPasswords (user : Payload) (s : VaultStore) :
    (listItems (getPasswords user s)).Sorted byCreatedAtDesc := by
  simpa [listItems, getPasswords] using
    List.sorted_insertionSort byCreatedAtDesc
      (s.records.filter (fun r => r.userId == user.id))

theorem applyRequest_step (s : VaultStore) (req : VaultRequest)
    {r' : PasswordRecord} (h : r' ∈ (applyRequest s req).records) :
    (∃ r ∈ s.records, r.mongoId = r'.mongoId ∧ r.userId = r'.userId) ∨
    (∃ u now site username password,
      req = VaultRequest.create u now site username password ∧
      r'.userId = u.id) := by
  cases req with
  | create u now site username password =>
      simp only [applyRequest, createPassword] at h
      by_cases h1 : site = "" ∨ username = "" ∨ password = ""
      · rw [if_pos h1] at h
        exact Or.inl ⟨r', h, rfl, rfl⟩
      · rw [if_neg h1] at h
        by_cases h2 : (jsTrim site).length < 3
        · rw [if_pos h2] at h
          exact Or.inl ⟨r', h, rfl, rfl⟩
        · rw [if_neg h2] at h
          by_cases h3 : (jsTrim username).length < 1
          · rw [if_pos h3] at h
            exact Or.inl ⟨r', h, rfl, rfl⟩
          · rw [if_neg h3] at h
            by_cases h4 : password.length < 1
            · rw [if_pos h4] at h
              exact Or.inl ⟨r', h, rfl, rfl⟩
            · rw [if_neg h4] at h
              simp only [List.mem_append, List.mem_singleton] at h
              rcases h with h | rfl
              · exact Or.inl ⟨r', h, rfl, rfl⟩
              · exact Or.inr ⟨u, now, site, username, password, rfl, rfl⟩
  | update u now rid site username password =>
      cases rid with
      | none => exact Or.inl ⟨r', h, rfl, rfl⟩
      | some i =>
          simp only [applyRequest, updatePassword] at h
          by_cases h1 : site = "" ∨ username = "" ∨ password = ""
          · rw [if_pos h1] at h
            exact Or.inl ⟨r', h, rfl, rfl⟩
          · rw [if_neg h1] at h
            by_cases h2 : (jsTrim site).length < 3
            · rw [if_pos h2] at h
              exact Or.inl ⟨r', h, rfl, rfl⟩
            · rw [if_neg h2] at h
              cases hf : s.records.find?
                  (fun r => r.mongoId == i && r.userId == u.id) with
              | none =>
                  rw [hf] at h
                  exact Or.inl ⟨r', h, rfl, rfl⟩
              | some r1 =>
                  rw [hf] at h
                  simp only at h
                  rcases mem_replaceFirst h with hmem | ⟨a, ha, _, hxa⟩
                  · exact Or.inl ⟨r', hmem, rfl, rfl⟩
                  · exact Or.inl ⟨a, ha, by rw [hxa], by rw [hxa]⟩
  | delete u rid =>
      cases rid with
      | none => exact Or.inl ⟨r', h, rfl, rfl⟩
      | some i =>
          simp only [applyRequest, deletePassword] at h
          cases hf : s.records.find?
              (fun r => r.mongoId == i && r.userId == u.id) with
          | none =>
              rw [hf] at h
              exact Or.inl ⟨r', h, rfl, rfl⟩
          | some r1 =>
              rw [hf] at h
              simp only at h
              exact Or.inl ⟨r', mem_removeFirst h, rfl, rfl⟩
  | list u => exact Or.inl ⟨r', h, rfl, rfl⟩

/-! ## Claims -/

/-- C1 (counterexample): an authenticated Update whose id is well-formed and
refers to no record is answered 400, not 404, when the submitted site is
shorter than 3 characters — the Update handler validates the body before the
ownership check, so the claimed "always 404" fails. -/
theorem c1_counterexample :
    updatePassword ⟨7, "alice"⟩ 9 (some 5) "ab" "u" "p" ⟨[], 0⟩ =
      (.error 400 "Site must be at least 3 characters long", ⟨[], 0⟩) ∧
    VaultResponse.error 400 "Site must be at least 3 characters long" ≠
      VaultResponse.error 404 "Password not found or access denied" := by
  exact ⟨by decide, by decide⟩

/-- C1 (amended): for every authenticated Update request whose record id is
well-formed and whose body passes field validation, and for every
authenticated Delete request whose record id is well-formed, if the id refers
to no record owned by the caller (absent, or present with a different
`userId`), the response is the 404 "Password not found or access denied"
error — never 200 and never a distinct 403 — and the credential store is
returned unchanged. -/
theorem c1_unowned_update_delete_yield_404 :
    ∀ (user : Payload) (now i : Nat) (site username password : String)
      (s : VaultStore),
    (∀ r ∈ s.records, ¬(r.mongoId = i ∧ r.userId = user.id)) →
    (updateValidates site username password →
      updatePassword user now (some i) site username password s =
        (.error 404 "Password not found or access denied", s)) ∧
    deletePassword user (some i) s =
      (.error 404 "Password not found or access denied", s) := by
  intro user now i site username password s hno
  have hfind :
      s.records.find? (fun r => r.mongoId == i && r.userId == user.id) = none := by
    rw [List.find?_eq_none]
    intro r hr
    simpa using hno r hr
  constructor
  · rintro ⟨h1, h2⟩
    simp only [updatePassword, if_neg h1, if_neg h2, hfind]
  · simp only [deletePassword, hfind]

/-- C1 witness: concrete instance of the amended claim on the empty store. -/
theorem c1_witness :
    updatePassword ⟨7, "alice"⟩ 9 (some 5) "abc" "u" "p" ⟨[], 0⟩ =
      (.error 404 "Password not found or access denied", ⟨[], 0⟩) ∧
    deletePassword ⟨7, "alice"⟩ (some 5) ⟨[], 0⟩ =
      (.error 404 "Password not found or access denied", ⟨[], 0⟩) := by
  have h := c1_unowned_update_delete_yield_404 ⟨7, "alice"⟩ 9 5 "abc" "u" "p"
    ⟨[], 0⟩ (by intro r hr; simp at hr)
  exact ⟨h.1 (by decide), h.2⟩

/-- C2: for every login request with a syntactically valid email and a
present password, both the absent-user case and the wrong-password case
produce the identical response: status 401 with the generic message
"Invalid email or password", revealing nothing about whether the email
exists. -/
theorem c2_login_generic_invalid_credentials :
    ∀ (compare : String → String → Bool) (sign : Payload → String)
      (email password : String) (s : UsersStore),
    validateEmail email = true → password ≠ "" →
    ((∀ u ∈ s.users, u.email ≠ jsToLower email) ∨
      (∃ u, s.users.find? (fun v => v.email == jsToLower email) = some u ∧
        compare password u.password = false)) →
    login compare sign email password s =
      .error 401 "Invalid email or password" := by
  intro compare sign email password s hem hpw hcase
  have heme : email ≠ "" := by
    intro h; rw [h] at hem; exact absurd hem (by decide)
  have hnotor : ¬(email = "" ∨ password = "") := by
    rintro (h | h)
    · exact heme h
    · exact hpw h
  rcases hcase with hnone | ⟨u, hfind, hcmp⟩
  · have hfind :
        s.users.find? (fun v => v.email == jsToLower email) = none := by
      rw [List.find?_eq_none]
      intro v hv
      simpa using hnone v hv
    simp only [login, if_neg hnotor, if_neg (not_not_intro hem), hfind]
  · simp only [login, if_neg hnotor, if_neg (not_not_intro hem), hfind]
    rw [if_pos]
    simp [hcmp]

/-- C2 witness: concrete instance with an empty user store. -/
theorem c2_witness :
    validateEmail "alice@x.com" = true ∧ ("wrong" : String) ≠ "" ∧
    login (fun _ _ => false) (fun _ => "tok") "alice@x.com" "wrong" ⟨[], 0⟩ =
      .error 401 "Invalid email or password" := by
  refine ⟨by decide, by decide, ?_⟩
  exact c2_login_generic_invalid_credentials (fun _ _ => false) (fun _ => "tok")
    "alice@x.com" "wrong" ⟨[], 0⟩ (by decide) (by decide)
    (Or.inl (by intro u hu; simp at hu))

/-- C3 (counterexample): registration stores usernames trimmed but not
lower-cased, while the duplicate query compares stored usernames against the
lower-cased input.  With the user "Alice" already registered, registering
"ALICE" (same lower-cased username, different email) passes field validation
yet is accepted with 201 instead of being rejected with a conflict naming
"Username". -/
theorem c3_counterexample :
    jsToLower "Alice" = jsToLower "ALICE" ∧
    validateUsername "ALICE" = true ∧
    validateEmail "other@x.com" = true ∧
    validatePassword "secret1" = true ∧
    (register (fun p => p) 1 "ALICE" "other@x.com" "secret1"
        ⟨[⟨0, "Alice", "alice@x.com", "hashed1", 0⟩], 1⟩).fst =
      .registered 1 "User registered successfully" := by
  exact ⟨by decide, by decide, by decide, by decide, by decide⟩

/-- C3 (amended): for every registration request that passes field
validation, if some user already exists whose stored email equals the
lower-cased submitted email or whose stored username equals the lower-cased
submitted username exactly (stored usernames preserve their original case,
so username uniqueness is not case-insensitive), the request is rejected
with a 400 conflict error naming "Email" or "Username" — "Email" when the
first such user matches on email, checked before username — and the user
store is unchanged. -/
theorem c3_registration_conflict_detection :
    ∀ (hash : String → String) (now : Nat) (username email password : String)
      (l1 l2 : List User) (u : User) (nextId : Nat),
    validateEmail email = true → validateUsername username = true →
    validatePassword password = true →
    (∀ v ∈ l1, v.email ≠ jsToLower email ∧ v.username ≠ jsToLower username) →
    (u.email = jsToLower email ∨ u.username = jsToLower username) →
    register hash now username email password ⟨l1 ++ u :: l2, nextId⟩ =
      (.error 400
        ((if u.email == jsToLower email then "Email" else "Username") ++
          " already exists"),
       ⟨l1 ++ u :: l2, nextId⟩) := by
  intro hash now username email password l1 l2 u nextId hem hun hpw hskip hmatch
  have hune : username ≠ "" := by
    intro h; rw [h] at hun; exact absurd hun (by decide)
  have heme : email ≠ "" := by
    intro h; rw [h] at hem; exact absurd hem (by decide)
  have hpwe : password ≠ "" := by
    intro h; rw [h] at hpw; exact absurd hpw (by decide)
  have hnotor : ¬(username = "" ∨ email = "" ∨ password = "") := by
    rintro (h | h | h)
    · exact hune h
    · exact heme h
    · exact hpwe h
  have hfind :
      (l1 ++ u :: l2).find?
        (fun v => v.email == jsToLower email || v.username == jsToLower username) =
      some u := by
    apply find?_append_cons
    · intro v hv
      have hv2 := hskip v hv
      simp [hv2.1, hv2.2]
    · rcases hmatch with h | h <;> simp [h]
  simp only [register, if_neg hnotor, if_neg (not_not_intro hem),
    if_neg (not_not_intro hun), if_neg (not_not_intro hpw), hfind]

/-- C3 witness: concrete duplicate-email registration rejected as
"Email already exists" with the store unchanged. -/
theorem c3_witness :
    register (fun p => p) 1 "bob" "Alice@X.com" "secret2"
        ⟨[⟨0, "Alice", "alice@x.com", "h1", 0⟩], 1⟩ =
      (.error 400 "Email already exists",
       ⟨[⟨0, "Alice", "alice@x.com", "h1", 0⟩], 1⟩) := by
  have h := c3_registration_conflict_detection (fun p => p) 1 "bob" "Alice@X.com"
    "secret2" [] [] ⟨0, "Alice", "alice@x.com", "h1", 0⟩ 1
    (by decide) (by decide) (by decide)
    (by intro v hv; simp at hv) (Or.inl (by decide))
  exact h

/-- C4: for every protected Vault route request, a missing bearer token is
answered with the "no token" 401 before any store access — the response is
the same for every store and the handler never runs — an expired token with
the distinct "expired" 401, and any other invalid token with the
"invalid token" 401; all three deny with status 401 and carry pairwise
distinct messages. -/
theorem c4_token_gate :
    ∀ (verify : String → JwtOutcome) (authHeader : Option String)
      (handler : Payload → VaultStore → VaultResponse × VaultStore)
      (s : VaultStore) (t : String),
    (extractToken authHeader = none →
      ∀ s2, runProtected verify authHeader handler s2 =
        (.error 401 "Access denied. No token provided.", s2)) ∧
    (extractToken authHeader = some t → verify t = .expired →
      runProtected verify authHeader handler s =
        (.error 401 "Token expired. Please login again.", s)) ∧
    (extractToken authHeader = some t → verify t = .invalid →
      runProtected verify authHeader handler s =
        (.error 401 "Invalid token.", s)) ∧
    (("Access denied. No token provided." : String) ≠
        "Token expired. Please login again." ∧
     ("Access denied. No token provided." : String) ≠ "Invalid token." ∧
     ("Token expired. Please login again." : String) ≠ "Invalid token.") := by
  intro verify authHeader handler s t
  refine ⟨?_, ?_, ?_, by decide, by decide, by decide⟩
  · intro hnone s2
    simp [runProtected, verifyToken, hnone]
  · intro hsome hexp
    simp [runProtected, verifyToken, hsome, hexp]
  · intro hsome hinv
    simp [runProtected, verifyToken, hsome, hinv]

/-- C4 witness: the three denial outcomes at concrete inputs. -/
theorem c4_witness :
    runProtected (fun _ => JwtOutcome.invalid) none
      (fun u s2 => (getPasswords u s2, s2)) ⟨[], 0⟩ =
      (.error 401 "Access denied. No token provided.", ⟨[], 0⟩) ∧
    runProtected (fun _ => JwtOutcome.expired) (some "Bearer x")
      (fun u s2 => (getPasswords u s2, s2)) ⟨[], 0⟩ =
      (.error 401 "Token expired. Please login again.", ⟨[], 0⟩) ∧
    runProtected (fun _ => JwtOutcome.invalid) (some "Bearer x")
      (fun u s2 => (getPasswords u s2, s2)) ⟨[], 0⟩ =
      (.error 401 "Invalid token.", ⟨[], 0⟩) := by
  refine ⟨?_, ?_, ?_⟩
  · exact (c4_token_gate (fun _ => JwtOutcome.invalid) none
      (fun u s2 => (getPasswords u s2, s2)) ⟨[], 0⟩ "x").1 (by decide) ⟨[], 0⟩
  · exact (c4_token_gate (fun _ => JwtOutcome.expired) (some "Bearer x")
      (fun u s2 => (getPasswords u s2, s2)) ⟨[], 0⟩ "x").2.1 (by decide) rfl
  · exact (c4_token_gate (fun _ => JwtOutcome.invalid) (some "Bearer x")
      (fun u s2 => (getPasswords u s2, s2)) ⟨[], 0⟩ "x").2.2.1 (by decide) rfl

/-- C5: every authenticated List request returns exactly the caller's
records — a record is in the response iff it is in the store with `userId`
equal to the caller's decoded identity — ordered most-recently-created
first (non-increasing `createdAt`). -/
theorem c5_list_exactly_owned_sorted :
    ∀ (user : Payload) (s : VaultStore),
    ∃ l, getPasswords user s = .list l ∧
      (∀ r, r ∈ l ↔ r ∈ s.records ∧ r.userId = user.id) ∧
      l.Sorted byCreatedAtDesc := by
  intro user s
  refine ⟨listItems (getPasswords user s), ?_, ?_, sorted_getPasswords user s⟩
  · simp [getPasswords, listItems]
  · intro r
    exact mem_listItems_getPasswords

/-- C6 (counterexample): the Update handler stores the *trimmed* site, so a
successful Update with the whitespace-padded site `" new-site.com "` leaves
the record holding `"new-site.com"`, not the submitted value — "replaced by
the submitted values" fails for site (and likewise username). -/
theorem c6_counterexample :
    (updatePassword ⟨7, "alice"⟩ 9 (some 0) " new-site.com " "neu" "npw"
        ⟨[⟨0, "old.com", "olduser", "oldpw", 7, 1, 1⟩], 1⟩).snd.records =
      [⟨0, "new-site.com", "neu", "npw", 7, 1, 9⟩] ∧
    ("new-site.com" : String) ≠ " new-site.com " := by
  exact ⟨by decide, by decide⟩

/-- C6 (amended): for every successful Update, the target record's site and
username are replaced by the *trimmed* submitted values and its password by
the submitted password, its updatedAt is set to the current time, while its
createdAt, userId and id are unchanged, and every other record (and the
store's id counter) is unchanged. -/
theorem c6_update_replaces_fields_and_frames_store :
    ∀ (user : Payload) (now i : Nat) (site username password : String)
      (l1 l2 : List PasswordRecord) (r0 : PasswordRecord) (nextId : Nat),
    (∀ r ∈ l1, r.mongoId ≠ i) →
    r0.mongoId = i → r0.userId = user.id →
    updateValidates site username password →
    ∃ r1,
      updatePassword user now (some i) site username password
          ⟨l1 ++ r0 :: l2, nextId⟩ =
        (.okMessage "Password updated successfully",
         ⟨l1 ++ r1 :: l2, nextId⟩) ∧
      r1.site = jsTrim site ∧ r1.username = jsTrim username ∧
      r1.password = password ∧ r1.updatedAt = now ∧
      r1.createdAt = r0.createdAt ∧ r1.userId = r0.userId ∧
      r1.mongoId = r0.mongoId := by
  intro user now i site username password l1 l2 r0 nextId hl1 hid hown hv
  exact ⟨_, updatePassword_success user now i site username password nextId
    hl1 hid hown hv, rfl, rfl, rfl, rfl, rfl, rfl, rfl⟩

/-- C6 witness: concrete successful Update on a one-record store. -/
theorem c6_witness :
    ∃ r1,
      updatePassword ⟨7, "alice"⟩ 9 (some 0) "new.com" "neu" "npw"
          ⟨[⟨0, "old.com", "olduser", "oldpw", 7, 1, 1⟩], 1⟩ =
        (.okMessage "Password updated successfully", ⟨[r1], 1⟩) ∧
      r1.site = jsTrim "new.com" ∧ r1.createdAt = 1 ∧ r1.userId = 7 := by
  obtain ⟨r1, heq, hsite, hun, hpw, hupd, hcr, hui, hmi⟩ :=
    c6_update_replaces_fields_and_frames_store ⟨7, "alice"⟩ 9 0 "new.com"
      "neu" "npw" [] [] ⟨0, "old.com", "olduser", "oldpw", 7, 1, 1⟩ 1
      (by intro r hr; simp at hr) rfl rfl (by decide)
  exact ⟨r1, heq, hsite, hcr, hui⟩

/-- C7 (counterexample): the triple (site `"abc"`, username `" "`,
password `"x"`) is rejected by Create's validation ("Username cannot be
empty") but accepted by Update's, which never checks the trimmed username —
so Update's validation is not identical to Create's. -/
theorem c7_counterexample :
    ¬ createValidates "abc" " " "x" ∧ updateValidates "abc" " " "x" ∧
    (createPassword ⟨7, "alice"⟩ 0 "abc" " " "x" ⟨[], 0⟩).fst =
      .error 400 "Username cannot be empty" ∧
    (updatePassword ⟨7, "alice"⟩ 9 (some 0) "abc" " " "x"
        ⟨[⟨0, "old.com", "olduser", "oldpw", 7, 1, 1⟩], 1⟩).fst =
      .okMessage "Password updated successfully" := by
  exact ⟨by decide, by decide, by decide, by decide⟩

/-- C7 (amended): Update re-validates the presence of all three fields and
the trimmed-site length ≥ 3 identically to Create, but omits Create's check
that the trimmed username is non-empty: every triple Create's validation
accepts is accepted by Update's, and Update's validation is exactly
presence plus trimmed-site length — strictly weaker on whitespace-only
usernames. -/
theorem c7_update_validation_weaker_than_create :
    ∀ site username password : String,
    (createValidates site username password →
      updateValidates site username password) ∧
    (updateValidates site username password ↔
      ¬(site = "" ∨ username = "" ∨ password = "") ∧
        3 ≤ (jsTrim site).length) := by
  intro site username password
  constructor
  · rintro ⟨h1, h2, h3, h4⟩
    exact ⟨h1, h2⟩
  · constructor
    · rintro ⟨h1, h2⟩
      exact ⟨h1, Nat.le_of_not_lt h2⟩
    · rintro ⟨h1, h2⟩
      exact ⟨h1, Nat.not_lt.mpr h2⟩

/-- C7 witness: a triple accepted by Create's validation is accepted by
Update's validation. -/
theorem c7_witness : updateValidates "abc.com" "bob" "pw" :=
  (c7_update_validation_weaker_than_create "abc.com" "bob" "pw").1 (by decide)

/-- C8 (counterexample): Create stores the *trimmed* site, so after
creating with site `" example.com "` the subsequent List shows
`"example.com"` — not the literal submitted site. -/
theorem c8_counterexample :
    getPasswords ⟨7, "alice"⟩
        (createPassword ⟨7, "alice"⟩ 5 " example.com " "bob" "pw" ⟨[], 0⟩).snd =
      .list [⟨0, "example.com", "bob", "pw", 7, 5, 5⟩] ∧
    PasswordRecord.site ⟨0, "example.com", "bob", "pw", 7, 5, 5⟩ ≠
      " example.com " := by
  exact ⟨by decide, by decide⟩

/-- C8 (amended): after a successful Create, a List by the same caller
contains the new record carrying the trimmed submitted site and username,
the literal submitted password, and server-set timestamps
createdAt = updatedAt = the creation time; after a successful Update, a
List by the same caller contains the updated record carrying the trimmed
new site and username and the literal new password, with createdAt
unchanged and updatedAt advanced to the (later) update time. -/
theorem c8_roundtrip_create_update_list :
    ∀ (user : Payload) (s : VaultStore) (now : Nat)
      (site username password : String),
    (createValidates site username password →
      ∃ l, getPasswords user
          (createPassword user now site username password s).snd = .list l ∧
        { mongoId := s.nextId
          site := jsTrim site
          username := jsTrim username
          password := password
          userId := user.id
          createdAt := now
          updatedAt := now } ∈ l) ∧
    (∀ (i nextId : Nat) (l1 l2 : List PasswordRecord) (r0 : PasswordRecord),
      (∀ r ∈ l1, r.mongoId ≠ i) → r0.mongoId = i → r0.userId = user.id →
      updateValidates site username password → r0.updatedAt < now →
      ∃ l r1,
        getPasswords user (updatePassword user now (some i) site username
            password ⟨l1 ++ r0 :: l2, nextId⟩).snd = .list l ∧
        r1 ∈ l ∧ r1.site = jsTrim site ∧ r1.username = jsTrim username ∧
        r1.password = password ∧ r1.createdAt = r0.createdAt ∧
        r0.updatedAt < r1.updatedAt) := by
  intro user s now site username password
  constructor
  · intro hv
    rw [createPassword_success user now site username password s hv]
    refine ⟨_, rfl, ?_⟩
    rw [List.mem_insertionSort, List.mem_filter]
    exact ⟨by simp, by simp⟩
  · intro i nextId l1 l2 r0 hl1 hid hown hv hlt
    rw [updatePassword_success user now i site username password nextId
      hl1 hid hown hv]
    refine ⟨_,
      { r0 with
        site := jsTrim site
        username := jsTrim username
        password := password
        updatedAt := now }, rfl, ?_, rfl, rfl, rfl, rfl, hlt⟩
    rw [List.mem_insertionSort, List.mem_filter]
    exact ⟨by simp, by simp [hown]⟩

/-- C8 witness: concrete Create-then-List and Update-then-List round trips. -/
theorem c8_witness :
    (∃ l, getPasswords ⟨7, "alice"⟩
        (createPassword ⟨7, "alice"⟩ 5 "example.com" "bob" "pw" ⟨[], 0⟩).snd =
          .list l ∧
      ({ mongoId := 0
         site := jsTrim "example.com"
         username := jsTrim "bob"
         password := "pw"
         userId := 7
         createdAt := 5
         updatedAt := 5 } : PasswordRecord) ∈ l) ∧
    (∃ l r1, getPasswords ⟨7, "alice"⟩
        (updatePassword ⟨7, "alice"⟩ 9 (some 0) "new.com" "neu" "npw"
          ⟨[⟨0, "old.com", "olduser", "oldpw", 7, 1, 1⟩], 1⟩).snd = .list l ∧
      r1 ∈ l ∧ r1.site = jsTrim "new.com" ∧ r1.username = jsTrim "neu" ∧
      r1.password = "npw" ∧ r1.createdAt = 1 ∧ (1 : Nat) < r1.updatedAt) := by
  have h := c8_roundtrip_create_update_list ⟨7, "alice"⟩ ⟨[], 0⟩ 5
    "example.com" "bob" "pw"
  have h9 := c8_roundtrip_create_update_list ⟨7, "alice"⟩ ⟨[], 0⟩ 9
    "new.com" "neu" "npw"
  refine ⟨h.1 (by decide), ?_⟩
  obtain ⟨l, r1, heq, hmem, hsite, hun, hpw, hcr, hupd⟩ :=
    h9.2 0 1 [] [] ⟨0, "old.com", "olduser", "oldpw", 7, 1, 1⟩
      (by intro r hr; simp at hr) rfl rfl (by decide) (by decide)
  exact ⟨l, r1, heq, hmem, hsite, hun, hpw, hcr, hupd⟩

/-- C9: ownership is invariant under every vault operation: any record in
the store after an arbitrary sequence of requests either descends from a
record present initially with the same id and the same userId (Create never
touches existing records, Update's `$set` never writes userId, Delete only
removes), or was introduced by a Create request whose authenticated
caller's decoded identity equals the record's userId — so no reachable
sequence of operations ever re-assigns a record to a different owner. -/
theorem c9_ownership_never_reassigned :
    ∀ (reqs : List VaultRequest) (s : VaultStore) (r2 : PasswordRecord),
    r2 ∈ (reqs.foldl applyRequest s).records →
    (∃ r ∈ s.records, r.mongoId = r2.mongoId ∧ r.userId = r2.userId) ∨
    (∃ req ∈ reqs, ∃ u now site username password,
      req = VaultRequest.create u now site username password ∧
      r2.userId = u.id) := by
  intro reqs
  induction reqs with
  | nil =>
      intro s r2 h
      exact Or.inl ⟨r2, by simpa using h, rfl, rfl⟩
  | cons req rest ih =>
      intro s r2 h
      have h2 : r2 ∈ (rest.foldl applyRequest (applyRequest s req)).records := by
        simpa using h
      rcases ih (applyRequest s req) r2 h2 with ⟨r, hr, hid, hown⟩ | ⟨q, hq, hx⟩
      · rcases applyRequest_step s req hr with
          ⟨r3, hr3, hid3, hown3⟩ | ⟨u, n, si, un, pw, hreq, hu⟩
        · exact Or.inl ⟨r3, hr3, hid3.trans hid, hown3.trans hown⟩
        · refine Or.inr ⟨req, by simp, u, n, si, un, pw, hreq, ?_⟩
          rw [← hown]
          exact hu
      · exact Or.inr ⟨q, by simp [hq], hx⟩

/-- C9 witness: a record created by caller 7 in an empty store is owned by
the creating caller. -/
theorem c9_witness :
    (∃ r ∈ (⟨[], 0⟩ : VaultStore).records, r.mongoId = 0 ∧ r.userId = 7) ∨
    (∃ req ∈ [VaultRequest.create ⟨7, "alice"⟩ 3 "abc.com" "bob" "pw"],
      ∃ u now site username password,
        req = VaultRequest.create u now site username password ∧
        (7 : Nat) = u.id) :=
  c9_ownership_never_reassigned
    [VaultRequest.create ⟨7, "alice"⟩ 3 "abc.com" "bob" "pw"] ⟨[], 0⟩
    ⟨0, "abc.com", "bob", "pw", 7, 3, 3⟩ (by decide)

/-- C10: every record of an authenticated List response is literally a
stored record — the `password` field is returned verbatim in plaintext
alongside site, username, userId and both timestamps, with no masking,
hashing or encryption — and Create and Update persist the submitted
password exactly as submitted. -/
theorem c10_list_returns_plaintext_passwords :
    ∀ (user : Payload) (s : VaultStore),
    (∀ r, r ∈ listItems (getPasswords user s) → r ∈ s.records) ∧
    (∀ (now : Nat) (site username password : String),
      createValidates site username password →
      ∃ r, r ∈ (createPassword user now site username password s).snd.records ∧
        r.password = password ∧ r.site = jsTrim site ∧
        r.username = jsTrim username ∧ r.userId = user.id ∧
        r.createdAt = now ∧ r.updatedAt = now) ∧
    (∀ (now i nextId : Nat) (site username password : String)
       (l1 l2 : List PasswordRecord) (r0 : PasswordRecord),
      (∀ r ∈ l1, r.mongoId ≠ i) → r0.mongoId = i → r0.userId = user.id →
      updateValidates site username password →
      ∃ r, r ∈ (updatePassword user now (some i) site username password
          ⟨l1 ++ r0 :: l2, nextId⟩).snd.records ∧
        r.password = password) := by
  intro user s
  refine ⟨?_, ?_, ?_⟩
  · intro r hr
    exact (mem_listItems_getPasswords.mp hr).1
  · intro now site username password hv
    rw [createPassword_success user now site username password s hv]
    exact ⟨{ mongoId := s.nextId
             site := jsTrim site
             username := jsTrim username
             password := password
             userId := user.id
             createdAt := now
             updatedAt := now }, by simp, rfl, rfl, rfl, rfl, rfl, rfl⟩
  · intro now i nextId site username password l1 l2 r0 hl1 hid hown hv
    rw [updatePassword_success user now i site username password nextId
      hl1 hid hown hv]
    exact ⟨{ r0 with
             site := jsTrim site
             username := jsTrim username
             password := password
             updatedAt := now }, by simp, rfl⟩

/-- C10 witness: concrete List, Create and Update instances returning and
persisting the password verbatim. -/
theorem c10_witness :
    ((⟨0, "abc.com", "bob", "pw", 7, 3, 3⟩ : PasswordRecord) ∈
      (⟨[⟨0, "abc.com", "bob", "pw", 7, 3, 3⟩], 1⟩ : VaultStore).records) ∧
    (∃ r, r ∈ (createPassword ⟨7, "alice"⟩ 4 "def.com" "carol" "pw2"
        ⟨[⟨0, "abc.com", "bob", "pw", 7, 3, 3⟩], 1⟩).snd.records ∧
      r.password = "pw2" ∧ r.site = jsTrim "def.com" ∧
      r.username = jsTrim "carol" ∧ r.userId = 7 ∧
      r.createdAt = 4 ∧ r.updatedAt = 4) ∧
    (∃ r, r ∈ (updatePassword ⟨7, "alice"⟩ 9 (some 0) "new.com" "neu" "npw"
        ⟨[⟨0, "old.com", "olduser", "oldpw", 7, 1, 1⟩], 1⟩).snd.records ∧
      r.password = "npw") := by
  have h := c10_list_returns_plaintext_passwords ⟨7, "alice"⟩
    ⟨[⟨0, "abc.com", "bob", "pw", 7, 3, 3⟩], 1⟩
  refine ⟨h.1 ⟨0, "abc.com", "bob", "pw", 7, 3, 3⟩ (by decide),
    h.2.1 4 "def.com" "carol" "pw2" (by decide), ?_⟩
  obtain ⟨r, hr, hpw⟩ := h.2.2 9 0 1 "new.com" "neu" "npw" [] []
    ⟨0, "old.com", "olduser", "oldpw", 7, 1, 1⟩
    (by intro r hr; simp at hr) rfl rfl (by decide)
  exact ⟨r, hr, hpw⟩

end PassManager
